import Mathlib

/-!
Verification development for the GraphGuard pipeline orchestration core.

The definitions below are a shallow embedding of the Python sources
`backend/agents/workflow.py` (the LangGraph workflow: routing table,
stage nodes, rule-based Coordinator scoring) and
`backend/agents/detector_enhanced.py` (the rule-based Signature
Detection Engine).  Python dictionaries with possibly missing keys are
modelled with `Option` fields and `Option.getD` for the `dict.get`
defaults; Python floats are modelled with `Rat`; the nondeterministic
LLM calls of the Detector, Investigator, Monitor, Judge and Mitigator
stages are modelled as `Except`-valued oracle inputs (a parsed payload
on success, an error string on failure), exactly as the engine consumes
them after JSON parsing.
-/

namespace GraphGuard

/-! ## Python rounding helper

`round(x, n)` in Python rounds half to even.  Only the exact rational
idealization matters here (the engine never branches on rounded values).
-/

/-- Round a rational to the nearest integer, ties to even. -/
def roundHalfEven (x : Rat) : Int :=
  let f : Int := x.floor
  let r : Rat := x - (f : Rat)
  if r < 1/2 then f
  else if 1/2 < r then f + 1
  else if f % 2 = 0 then f else f + 1

/-- Model of Python `round(x, nd)` on exact rationals. -/
def pyRound (nd : Nat) (x : Rat) : Rat :=
  ((roundHalfEven (x * (10 : Rat) ^ nd) : Int) : Rat) / (10 : Rat) ^ nd

/-! ## Decision metadata records read by the Routing Table

`workflow.py` reads only a small subset of each Decision.metadata dict;
fields that may be absent from the dict are `Option`s.
-/

/-- Subset of the Coordinator (orchestrator) Decision.metadata read by
`_route_after_orchestrator`. -/
structure OrchMetaRec where
  threat_level : Option String := none
  workflow_mode : Option String := none
deriving DecidableEq

/-- One entry of the Detector threats list (only its confidence is ever
read by the engine, for the average-confidence computation). -/
structure ThreatRec where
  confidence : Option Rat := none
deriving DecidableEq

/-- The Detector `overall_assessment` sub-dict. -/
structure AssessRec where
  total_threats : Option Nat := none
  critical_threats : Option Nat := none
  high_confidence_threats : Option Nat := none
  recommended_action : Option String := none
deriving DecidableEq

/-- Subset of the Detector Decision.metadata read by
`_route_after_detector`. -/
structure DetMetaRec where
  threats_detected : Option (List ThreatRec) := none
  overall_assessment : Option AssessRec := none
deriving DecidableEq

/-- The Judge `final_assessment` sub-dict. -/
structure FinalAssessRec where
  threat_level : Option String := none
  confidence : Option Rat := none
  requires_immediate_action : Option Bool := none
  automated_response_approved : Option Bool := none
  human_intervention_required : Option Bool := none
deriving DecidableEq

/-- Subset of the Judge Decision.metadata read by `_route_after_judge`. -/
structure JudgeMetaRec where
  final_assessment : Option FinalAssessRec := none
deriving DecidableEq

/-! ## Routing Table

Direct translations of `_route_after_orchestrator`,
`_route_after_detector` and `_route_after_judge` in `workflow.py`.
Each takes the (possibly absent) decision metadata, since the metadata
dict is the only part of the decision those functions read.
-/

/-- `_route_after_orchestrator` (workflow.py lines 111-126). -/
def route_after_orchestrator (d : Option OrchMetaRec) : String :=
  match d with
  | none => "full_analysis"
  | some m =>
    let threat_level := m.threat_level.getD "NONE"
    let workflow_mode := m.workflow_mode.getD "full_analysis"
    if workflow_mode = "monitoring_only" then "monitoring_only"
    else if threat_level = "NONE" then "skip_to_judge"
    else "full_analysis"

/-- `_route_after_detector` (workflow.py lines 128-145). -/
def route_after_detector (d : Option DetMetaRec) : String :=
  match d with
  | none => "no_threats"
  | some m =>
    let threats := m.threats_detected.getD []
    let oa := m.overall_assessment.getD {}
    let recommended_action := oa.recommended_action.getD "none"
    if ¬ threats.isEmpty ∧
        (recommended_action = "investigate" ∨ recommended_action = "immediate_response") then
      "investigate"
    else if recommended_action = "monitor" then "skip_to_monitor"
    else "no_threats"

/-- `_route_after_judge` (workflow.py lines 147-165). -/
def route_after_judge (d : Option JudgeMetaRec) : String :=
  match d with
  | none => "no_action"
  | some m =>
    let fa := m.final_assessment.getD {}
    let requires_action := fa.requires_immediate_action.getD false
    let automated_approved := fa.automated_response_approved.getD false
    let human_required := fa.human_intervention_required.getD false
    if human_required then "human_review"
    else if requires_action ∧ automated_approved then "mitigate"
    else "no_action"

/-- The branch-name to node-name map of the conditional edge added after
the orchestrator (`_build_graph`): full_analysis goes to the detector,
monitoring_only to the monitor, skip_to_judge to the judge. -/
def orchRouteTarget (branch : String) : Option String :=
  if branch = "full_analysis" then some "detector"
  else if branch = "monitoring_only" then some "monitor"
  else if branch = "skip_to_judge" then some "judge"
  else none

/-- The branch-name to node-name map after the detector: investigate
goes to the investigator, both skip_to_monitor and no_threats go to the
monitor. -/
def detRouteTarget (branch : String) : Option String :=
  if branch = "investigate" then some "investigator"
  else if branch = "skip_to_monitor" then some "monitor"
  else if branch = "no_threats" then some "monitor"
  else none

/-! ## Scoring Engine (the rule-based Coordinator executor)

Translation of `_orchestrator_node` (workflow.py lines 167-402).  The
input batch is the JSON body handed to the workflow: an optional node
list and an optional edge list (the source guards both with
`if "nodes" in input_data` / `if "edges" in input_data`).
-/

/-- An input-batch node as read by the orchestrator: `status` and
`traffic_volume` are accessed through `dict.get`. -/
structure InNode where
  status : Option String := none
  traffic_volume : Nat := 0
deriving DecidableEq

/-- An input-batch edge as read by the orchestrator: `connection_type`
defaults to "normal" and `attack_type` to "Unknown" through
`dict.get`. -/
structure InEdge where
  connection_type : Option String := none
  attack_type : Option String := none
deriving DecidableEq

/-- The input batch. `none` models a missing "nodes"/"edges" key. -/
structure InputData where
  nodes : Option (List InNode) := none
  edges : Option (List InEdge) := none
deriving DecidableEq

/-- Connection type of an edge with the Python default applied. -/
def InEdge.connType (e : InEdge) : String := e.connection_type.getD "normal"

/-- Attack-type label of an edge with the Python default applied. -/
def InEdge.attackLabel (e : InEdge) : String := e.attack_type.getD "Unknown"

/-- Increment the counter stored under key `k` of an association list,
inserting the key with count 1 if absent: the effect of
`attack_types[t] = attack_types.get(t, 0) + 1` on a Python dict
(insertion order preserved). -/
def bumpKey : List (String × Nat) → String → List (String × Nat)
  | [], k => [(k, 1)]
  | (k0, v) :: rest, k =>
    if k0 = k then (k0, v + 1) :: rest else (k0, v) :: bumpKey rest k

/-- Count stored under key `k` (`attack_types.get(k, 0)`). -/
def lookupKey : List (String × Nat) → String → Nat
  | [], _ => 0
  | (k0, v) :: rest, k => if k0 = k then v else lookupKey rest k

/-- Key membership (`k in attack_types`). -/
def hasKey : List (String × Nat) → String → Bool
  | [], _ => false
  | (k0, _) :: rest, k => if k0 = k then true else hasKey rest k

/-- The attack-type frequency table built by the orchestrator loop over
the edges: for each edge whose connection type is "attack", the counter
under its attack-type label is bumped. -/
def attackTypesOf (edges : List InEdge) : List (String × Nat) :=
  edges.foldl
    (fun m e => if e.connType = "attack" then bumpKey m e.attackLabel else m) []

/-- Number of attack edges. -/
def attackCountOf (edges : List InEdge) : Nat :=
  edges.countP (fun e => e.connType = "attack")

/-- Number of suspicious edges. -/
def suspiciousCountOf (edges : List InEdge) : Nat :=
  edges.countP (fun e => e.connType = "suspicious")

/-- Number of edges counted as normal (the `else` branch of the loop:
neither "attack" nor "suspicious"). -/
def normalCountOf (edges : List InEdge) : Nat :=
  edges.countP (fun e => e.connType ≠ "attack" ∧ e.connType ≠ "suspicious")

/-- `attack_ratio = attack_count / total_edges` (0 when there are no
edges). -/
def attackRatioFn (attack_count total_edges : Nat) : Rat :=
  if 0 < total_edges then (attack_count : Rat) / (total_edges : Rat) else 0

/-- `suspicious_ratio = suspicious_count / total_edges` (0 when there
are no edges). -/
def suspiciousRatioFn (suspicious_count total_edges : Nat) : Rat :=
  if 0 < total_edges then (suspicious_count : Rat) / (total_edges : Rat) else 0

/-- `threat_ratio = attack_ratio + suspicious_ratio * 0.5`. -/
def threatRatioFn (attack_count suspicious_count total_edges : Nat) : Rat :=
  attackRatioFn attack_count total_edges
    + suspiciousRatioFn suspicious_count total_edges * (1/2)

/-- The priority-ordered base rules of the Scoring Engine
(workflow.py lines 230-273), returning
(threat_level, priority, workflow_mode). -/
def scoreBase (attack_count suspicious_count total_edges : Nat) :
    String × String × String :=
  let ar := attackRatioFn attack_count total_edges
  let tr := threatRatioFn attack_count suspicious_count total_edges
  if 20 < attack_count ∨ (25 : Rat)/100 < ar then
    ("CRITICAL", "immediate", "full_analysis")
  else if 10 < attack_count ∨ (15 : Rat)/100 < ar then
    ("HIGH", "high", "full_analysis")
  else if 3 < attack_count ∨ 15 < suspicious_count ∨ (10 : Rat)/100 < tr then
    ("MEDIUM", "elevated", "full_analysis")
  else if 5 < suspicious_count ∨ 0 < attack_count then
    ("LOW", "standard", "full_analysis")
  else
    ("NONE", "monitoring_only", "monitoring_only")

/-- The attack types the APT override looks for
(`sophisticated_attacks`, workflow.py line 283). -/
def sophisticatedAttacks : List String :=
  ["APT Exfiltration", "Zero-Day Exploit", "Ransomware"]

/-- The raw statistics stored in the orchestrator Decision.metadata. -/
structure StatsRec where
  total_nodes : Nat
  total_edges : Nat
  attack_count : Nat
  suspicious_count : Nat
  attack_types : List (String × Nat)
deriving DecidableEq

/-- The full orchestrator Decision.metadata dict (every key the node
writes that holds engine-relevant structure; `statistics` is the nested
raw-statistics dict). -/
structure OrchestratorMeta where
  threat_level : String
  priority : String
  workflow_mode : String
  agent_priorities : List (String × String)
  ddos_detected : Bool
  apt_detected : Bool
  statistics : StatsRec
deriving DecidableEq

/-- The orchestrator metadata computed from an input batch: base rules,
then the DDoS override (workflow.py lines 276-280), then the APT
override (lines 282-287), then the agent-priority table (lines
289-296). -/
def orchestratorMetaOf (inp : InputData) : OrchestratorMeta :=
  let nodes := inp.nodes.getD []
  let edges := inp.edges.getD []
  let total_nodes := nodes.length
  let total_edges := edges.length
  let attack_count := attackCountOf edges
  let suspicious_count := suspiciousCountOf edges
  let attack_types := attackTypesOf edges
  let tr := threatRatioFn attack_count suspicious_count total_edges
  let base := scoreBase attack_count suspicious_count total_edges
  let ddos_detected :=
    hasKey attack_types "DDoS Volumetric" ∧ 5 < lookupKey attack_types "DDoS Volumetric"
  let level1 := if ddos_detected then "CRITICAL" else base.1
  let priority1 := if ddos_detected then "immediate" else base.2.1
  let apt_detected := sophisticatedAttacks.any (fun a => hasKey attack_types a)
  let level2 := if apt_detected then (if level1 = "LOW" then "HIGH" else level1) else level1
  let priority2 := if apt_detected then "high" else priority1
  { threat_level := level2
    priority := priority2
    workflow_mode := base.2.2
    agent_priorities :=
      [("detector", if (10 : Rat)/100 < tr then "high" else "standard"),
       ("investigator", if 5 < attack_count then "high" else "standard"),
       ("monitor", "standard"),
       ("judge", if level2 = "CRITICAL" ∨ level2 = "HIGH" then "high" else "standard"),
       ("mitigator", if level2 = "CRITICAL" then "immediate" else "standard")]
    ddos_detected := decide ddos_detected
    apt_detected := apt_detected
    statistics :=
      { total_nodes := total_nodes
        total_edges := total_edges
        attack_count := attack_count
        suspicious_count := suspicious_count
        attack_types := attack_types } }

/-- The full orchestrator Decision.  `startTime`/`finishTime` model the
two `time.time()` reads; the human-readable reasoning string is opaque
to the engine and its numeric formatting is abstracted by `toString`. -/
structure OrchDecisionRec where
  agent_id : String
  decision : String
  confidence : Rat
  reasoning : String
  metadata : OrchestratorMeta
  processing_time_ms : Rat
deriving DecidableEq

/-- Orchestrator confidence from data completeness
(workflow.py lines 348-355). -/
def orchestratorConfidence (total_nodes total_edges : Nat) : Rat :=
  if total_edges = 0 then 3/10
  else if total_edges < 10 then 7/10
  else if total_nodes < 5 then 8/10
  else 1

/-- The Decision produced by `_orchestrator_node`. -/
def orchestratorDecision (startTime finishTime : Rat) (inp : InputData) :
    OrchDecisionRec :=
  let nodes := inp.nodes.getD []
  let edges := inp.edges.getD []
  let meta := orchestratorMetaOf inp
  { agent_id := "orchestrator"
    decision := "route_workflow_" ++ meta.workflow_mode
    confidence := orchestratorConfidence nodes.length edges.length
    reasoning :=
      "Analyzed network traffic: " ++ toString nodes.length ++ " nodes, "
        ++ toString edges.length ++ " connections. Threat assessment: "
        ++ meta.threat_level ++ "."
    metadata := meta
    processing_time_ms := (finishTime - startTime) * 1000 }

/-- The routing view of the orchestrator metadata: the produced dict
always carries the `threat_level` and `workflow_mode` keys. -/
def routeMetaOf (m : OrchestratorMeta) : OrchMetaRec :=
  { threat_level := some m.threat_level, workflow_mode := some m.workflow_mode }

/-! ## Workflow Engine: LLM-backed stage nodes and the run loop

Each LLM-backed node parses the model response into a payload and
builds a Decision from it; an exception anywhere in that `try` block
takes the `except` fallback.  The oracle value `Except.ok p` models a
successfully parsed payload `p`, `Except.error e` models the exception
path with message `e`.
-/

/-- The Detector Decision (decision string, confidence, reasoning, and
the metadata subset the engine reads). -/
structure DetDecisionRec where
  decision : String
  confidence : Rat
  reasoning : String
  metadata : DetMetaRec
deriving DecidableEq

/-- Parsed Detector LLM payload (`detector_data`): every field is
extracted with a `dict.get` default in the node. -/
structure DetPayload where
  threats_detected : Option (List ThreatRec) := none
  overall_assessment : Option AssessRec := none
  summary : Option String := none
deriving DecidableEq

/-- The Decision built by `_detector_node` (workflow.py lines 601-672):
the success branch on a parsed payload, the `except` branch on an
error. -/
def detectorDecisionOf (r : Except String DetPayload) : DetDecisionRec :=
  match r with
  | .ok p =>
    let threats_detected := p.threats_detected.getD []
    let overall_assessment := p.overall_assessment.getD {}
    let summary := p.summary.getD "Threat detection analysis complete"
    let total_threats := overall_assessment.total_threats.getD 0
    let decision :=
      if total_threats = 0 then "no_threats_detected"
      else if overall_assessment.recommended_action = some "immediate_response" then
        "critical_threats_detected"
      else if overall_assessment.recommended_action = some "investigate" then
        "threats_require_investigation"
      else "threats_detected_monitoring"
    let confidence :=
      if ¬ threats_detected.isEmpty then
        pyRound 2 ((threats_detected.map (fun t => t.confidence.getD 0)).sum
          / (threats_detected.length : Rat))
      else 95/100
    { decision := decision, confidence := confidence, reasoning := summary,
      metadata := { threats_detected := some threats_detected,
                    overall_assessment := some overall_assessment } }
  | .error e =>
    { decision := "detection_error", confidence := 3/10,
      reasoning := "Detector agent encountered an error: " ++ e,
      metadata := { threats_detected := some [],
                    overall_assessment := some
                      { total_threats := some 0, critical_threats := some 0,
                        high_confidence_threats := some 0,
                        recommended_action := some "none" } } }

/-- One investigation record (only its confidence is read by the
engine). -/
structure InvRec where
  confidence : Option Rat := none
deriving DecidableEq

/-- The Investigator `overall_assessment` sub-dict. -/
structure InvAssessRec where
  total_investigations : Option Nat := none
  critical_investigations : Option Nat := none
  coordinated_attack : Option Bool := none
  attack_in_progress : Option Bool := none
  recommended_priority : Option String := none
  requires_immediate_action : Option Bool := none
deriving DecidableEq

/-- Parsed Investigator LLM payload. -/
structure InvPayload where
  investigations : Option (List InvRec) := none
  overall_assessment : Option InvAssessRec := none
  executive_summary : Option String := none
deriving DecidableEq

/-- The Investigator Decision. -/
structure InvDecisionRec where
  decision : String
  confidence : Rat
  reasoning : String
deriving DecidableEq

/-- The Decision built by `_investigator_node`
(workflow.py lines 947-1033). -/
def investigatorDecisionOf (r : Except String InvPayload) : InvDecisionRec :=
  match r with
  | .ok p =>
    let investigations := p.investigations.getD []
    let overall_assessment := p.overall_assessment.getD {}
    let executive_summary := p.executive_summary.getD "Investigation complete"
    let decision :=
      if overall_assessment.requires_immediate_action = some true then
        "critical_threats_confirmed"
      else if overall_assessment.attack_in_progress = some true then
        "active_attack_confirmed"
      else if overall_assessment.coordinated_attack = some true then
        "coordinated_campaign_detected"
      else if 0 < overall_assessment.total_investigations.getD 0 then
        "threats_investigated"
      else "no_actionable_threats"
    let confidence :=
      if ¬ investigations.isEmpty then
        pyRound 2 ((investigations.map (fun v => v.confidence.getD 0)).sum
          / (investigations.length : Rat))
      else 9/10
    { decision := decision, confidence := confidence, reasoning := executive_summary }
  | .error e =>
    { decision := "investigation_error", confidence := 3/10,
      reasoning := "Investigator agent encountered an error: " ++ e }

/-- Parsed Monitor LLM payload (the logs and dashboard dicts are
opaque pass-through blobs and are not modelled). -/
structure MonPayload where
  network_status : Option String := none
  health_score : Option Rat := none
  summary : Option String := none
deriving DecidableEq

/-- The Monitor Decision. -/
structure MonDecisionRec where
  decision : String
  confidence : Rat
  reasoning : String
  network_status : String
deriving DecidableEq

/-- The Decision built by `_monitor_node` (workflow.py lines 1124-1210):
on success the status string defaults to "unknown" and confidence is
0.9; on failure the status is "unknown" and confidence 0.3.  In both
branches the decision label is "monitoring_" followed by the status. -/
def monitorDecisionOf (r : Except String MonPayload) : MonDecisionRec :=
  match r with
  | .ok p =>
    let network_status := p.network_status.getD "unknown"
    let summary := p.summary.getD "Network monitoring analysis complete"
    { decision := "monitoring_" ++ network_status, confidence := 9/10,
      reasoning := summary, network_status := network_status }
  | .error e =>
    { decision := "monitoring_" ++ "unknown", confidence := 3/10,
      reasoning := "Monitoring agent encountered an error. Fallback mode active."
        ++ " " ++ e,
      network_status := "unknown" }

/-- Parsed Judge LLM payload. -/
structure JudPayload where
  final_assessment : Option FinalAssessRec := none
  reasoning : Option String := none
deriving DecidableEq

/-- The Judge Decision. -/
structure JudgeDecisionRec where
  decision : String
  confidence : Rat
  reasoning : String
  metadata : JudgeMetaRec
deriving DecidableEq

/-- The Decision built by `_judge_node` (workflow.py lines 1436-1506):
the threat level of the final assessment picks the decision string; the
`except` branch substitutes a NONE assessment and routes to no action. -/
def judgeDecisionOf (r : Except String JudPayload) : JudgeDecisionRec :=
  match r with
  | .ok p =>
    let final_assessment := p.final_assessment.getD {}
    let reasoning := p.reasoning.getD "Judgment complete"
    let threat_level := final_assessment.threat_level.getD "NONE"
    let decision :=
      if threat_level = "CRITICAL" then "critical_threat_confirmed"
      else if threat_level = "HIGH" then "high_threat_confirmed"
      else if threat_level = "MEDIUM" then "medium_threat_confirmed"
      else if threat_level = "LOW" then "low_threat_confirmed"
      else "no_threat_detected"
    { decision := decision,
      confidence := final_assessment.confidence.getD (8/10),
      reasoning := reasoning,
      metadata := { final_assessment := some final_assessment } }
  | .error e =>
    let fa : FinalAssessRec := { threat_level := some "NONE", confidence := some (1/2) }
    { decision := "judgment_error", confidence := 3/10,
      reasoning := "Judge agent encountered an error: " ++ e,
      metadata := { final_assessment := some fa } }

/-- One mitigation action as read by the engine. -/
structure MitActionRec where
  action_type : Option String := none
  severity : Option String := none
  automated : Option Bool := none
  success_probability : Option Rat := none
deriving DecidableEq

/-- Parsed Mitigator LLM payload. -/
structure MitPayload where
  mitigation_actions : Option (List MitActionRec) := none
  summary : Option String := none
deriving DecidableEq

/-- The Mitigator Decision. -/
structure MitDecisionRec where
  decision : String
  confidence : Rat
  reasoning : String
deriving DecidableEq

/-- The Decision built by `_mitigator_node`
(workflow.py lines 1685-1756). -/
def mitigatorDecisionOf (r : Except String MitPayload) : MitDecisionRec :=
  match r with
  | .ok p =>
    let mitigation_actions := p.mitigation_actions.getD []
    let summary := p.summary.getD "Mitigation actions executed"
    let decision :=
      if mitigation_actions.isEmpty
          ∨ mitigation_actions.all (fun a => a.action_type = some "none") then
        "no_mitigation_required"
      else if mitigation_actions.any (fun a => a.severity = some "critical") then
        "critical_mitigation_executed"
      else if mitigation_actions.any (fun a => a.automated = some true) then
        "automated_mitigation_executed"
      else "mitigation_planned"
    let confidence :=
      if ¬ mitigation_actions.isEmpty then
        pyRound 2 ((mitigation_actions.map (fun a => a.success_probability.getD (1/2))).sum
          / (mitigation_actions.length : Rat))
      else 9/10
    { decision := decision, confidence := confidence, reasoning := summary }
  | .error e =>
    { decision := "mitigation_error", confidence := 3/10,
      reasoning := "Mitigator agent encountered an error: " ++ e }

/-- The oracle of LLM outcomes for one run: one outcome per LLM-backed
stage (the orchestrator is rule-based and needs none). -/
structure Oracle where
  det : Except String DetPayload
  inv : Except String InvPayload
  mon : Except String MonPayload
  jud : Except String JudPayload
  mit : Except String MitPayload

/-- The LangGraph `AgentState` as touched by the nodes (the fields the
engine writes and routing reads). -/
structure WFState where
  input_data : InputData
  orchestrator_decision : Option OrchDecisionRec := none
  detector_decision : Option DetDecisionRec := none
  investigator_decision : Option InvDecisionRec := none
  monitor_decision : Option MonDecisionRec := none
  judge_decision : Option JudgeDecisionRec := none
  mitigator_decision : Option MitDecisionRec := none
  current_step : String := ""
  completed_agents : List String := []
  final_decision : Option JudgeDecisionRec := none

/-- State update of `_orchestrator_node`. -/
def orchestratorStep (startTime finishTime : Rat) (s : WFState) : WFState :=
  let d := orchestratorDecision startTime finishTime s.input_data
  { s with orchestrator_decision := some d,
           current_step := "orchestrator",
           completed_agents := s.completed_agents ++ ["orchestrator"] }

/-- State update of `_detector_node`. -/
def detectorStep (r : Except String DetPayload) (s : WFState) : WFState :=
  { s with detector_decision := some (detectorDecisionOf r),
           current_step := "detector",
           completed_agents := s.completed_agents ++ ["detector"] }

/-- State update of `_investigator_node`. -/
def investigatorStep (r : Except String InvPayload) (s : WFState) : WFState :=
  { s with investigator_decision := some (investigatorDecisionOf r),
           current_step := "investigator",
           completed_agents := s.completed_agents ++ ["investigator"] }

/-- State update of `_monitor_node`. -/
def monitorStep (r : Except String MonPayload) (s : WFState) : WFState :=
  { s with monitor_decision := some (monitorDecisionOf r),
           current_step := "monitor",
           completed_agents := s.completed_agents ++ ["monitor"] }

/-- State update of `_judge_node`: the only node that assigns
`final_decision` (workflow.py lines 1508-1511). -/
def judgeStep (r : Except String JudPayload) (s : WFState) : WFState :=
  { s with judge_decision := some (judgeDecisionOf r),
           final_decision := some (judgeDecisionOf r),
           current_step := "judge",
           completed_agents := s.completed_agents ++ ["judge"] }

/-- State update of `_mitigator_node`: it records its own decision and
deliberately leaves `final_decision` untouched (workflow.py lines
1758-1763). -/
def mitigatorStep (r : Except String MitPayload) (s : WFState) : WFState :=
  { s with mitigator_decision := some (mitigatorDecisionOf r),
           current_step := "mitigator",
           completed_agents := s.completed_agents ++ ["mitigator"] }

/-- One full run of the compiled LangGraph (`_build_graph` wiring):
orchestrator, then the conditional edges.  "monitoring_only" goes to
the monitor, "skip_to_judge" straight to the judge, anything else to
the detector; after the detector, "investigate" goes to the
investigator while "skip_to_monitor" and "no_threats" both go to the
monitor; investigator and monitor always continue to the judge; after
the judge, "mitigate" runs the mitigator, while "no_action" and
"human_review" terminate. -/
def runWorkflow (startTime finishTime : Rat) (inp : InputData) (o : Oracle) :
    WFState :=
  let s0 : WFState := { input_data := inp }
  let s1 := orchestratorStep startTime finishTime s0
  let preJudge :=
    match route_after_orchestrator
        (s1.orchestrator_decision.map (fun d => routeMetaOf d.metadata)) with
    | "monitoring_only" => monitorStep o.mon s1
    | "skip_to_judge" => s1
    | _ =>
      let s2 := detectorStep o.det s1
      match route_after_detector (s2.detector_decision.map (fun d => d.metadata)) with
      | "investigate" => investigatorStep o.inv s2
      | _ => monitorStep o.mon s2
  let sj := judgeStep o.jud preJudge
  match route_after_judge (sj.judge_decision.map (fun d => d.metadata)) with
  | "mitigate" => mitigatorStep o.mit sj
  | _ => sj

/-! ## Signature Detection Engine (detector_enhanced.py)

The rule-based `EnhancedDetectorAgent`: attack signatures, the
edge-analysis pass, the coordinated-attack pass, and the threat-level
aggregation.
-/

/-- A NetFlow edge as read by the enhanced detector. -/
structure FlowEdge where
  id : Option String := none
  source_id : Option String := none
  target_id : Option String := none
  connection_type : Option String := none
  attack_type : Option String := none
  packet_count : Nat := 0
  bandwidth : Nat := 0
  protocol : Option String := none
deriving DecidableEq

/-- An attack signature row of `ATTACK_SIGNATURES`: `port = none` and
`protocol = none` match anything; a missing `bandwidth_threshold`
(Port-Scan) behaves as infinity through the
`signature.get("bandwidth_threshold", inf)` default. -/
structure AttackSig where
  port : Option Nat := none
  protocol : Option String := none
  packet_rate_threshold : Nat
  bandwidth_threshold : Option Nat := none
deriving DecidableEq

/-- The static `ATTACK_SIGNATURES` table (detector_enhanced.py lines
18-89), in dict insertion order.  The Port-Scan row also carries an
unused `unique_ports_threshold` in the source; only the fields the
matching code reads are modelled. -/
def ATTACK_SIGNATURES : List (String × AttackSig) :=
  [("DDoS-DNS",
    { port := some 53, protocol := some "UDP",
      packet_rate_threshold := 10000, bandwidth_threshold := some 1000 }),
   ("DDoS-NTP",
    { port := some 123, protocol := some "UDP",
      packet_rate_threshold := 8000, bandwidth_threshold := some 800 }),
   ("DDoS-LDAP",
    { port := some 389, protocol := some "UDP",
      packet_rate_threshold := 12000, bandwidth_threshold := some 1500 }),
   ("DDoS-MSSQL",
    { port := some 1434, protocol := some "UDP",
      packet_rate_threshold := 9000, bandwidth_threshold := some 900 }),
   ("DDoS-NetBIOS",
    { port := some 137, protocol := some "UDP",
      packet_rate_threshold := 7000, bandwidth_threshold := some 700 }),
   ("DDoS-SNMP",
    { port := some 161, protocol := some "UDP",
      packet_rate_threshold := 11000, bandwidth_threshold := some 1100 }),
   ("DDoS-SSDP",
    { port := some 1900, protocol := some "UDP",
      packet_rate_threshold := 13000, bandwidth_threshold := some 1300 }),
   ("SYN-Flood",
    { port := none, protocol := some "TCP",
      packet_rate_threshold := 15000, bandwidth_threshold := some 500 }),
   ("UDP-Flood",
    { port := none, protocol := some "UDP",
      packet_rate_threshold := 20000, bandwidth_threshold := some 2000 }),
   ("Port-Scan",
    { port := none, protocol := none,
      packet_rate_threshold := 1000, bandwidth_threshold := none })]

/-- One detection record, with the fields the claims and the
aggregation read. -/
structure Detection where
  dtype : String
  attack_name : Option String := none
  severity : String
  confidence : Rat
  target : Option String := none
deriving DecidableEq

/-- Characters after the last occurrence of the separator: the last
element of Python `s.split(sep)`. -/
def afterLastSep (sep : Char) (cs : List Char) : List Char :=
  cs.foldl (fun acc ch => if ch = sep then [] else acc ++ [ch]) []

/-- Parse a non-empty all-digit character list as a natural number:
Python `int(s)` on the inputs where that call succeeds. -/
def digitsToNat (cs : List Char) : Option Nat :=
  if cs.isEmpty then none
  else
    cs.foldl
      (fun acc ch =>
        match acc with
        | none => none
        | some n => if ch.isDigit then some (n * 10 + (ch.toNat - 48)) else none)
      (some 0)

/-- Port extraction from a node id of the form "ip:port"
(detector_enhanced.py lines 208-211): when the id contains a colon, the
segment after the last colon is parsed as the port. -/
def extractPort (target_id : String) : Option Nat :=
  if target_id.data.contains ':' then digitsToNat (afterLastSep ':' target_id.data)
  else none

/-- Character-wise uppercasing (Python `str.upper` on ASCII data). -/
def strUpper (s : String) : String := ⟨s.data.map Char.toUpper⟩

/-- The uppercased protocol of an edge
(`edge.get("protocol", "").upper()`). -/
def FlowEdge.protoUpper (e : FlowEdge) : String := strUpper (e.protocol.getD "")

/-- Suffix test on strings (Python `str.endswith`). -/
def strEndsWith (s suffix : String) : Bool := suffix.data.isSuffixOf s.data

/-- Port-and-protocol match of an edge against one signature
(detector_enhanced.py lines 220-222). -/
def sigMatches (e : FlowEdge) (s : AttackSig) : Bool :=
  (match s.port with
   | none => true
   | some p => extractPort (e.target_id.getD "") == some p)
  && (match s.protocol with
      | none => true
      | some pr => e.protoUpper == pr)

/-- Threshold test of a matching edge (detector_enhanced.py line 226):
the packet count exceeds the packet-rate threshold, or the bandwidth
exceeds the bandwidth threshold (never satisfied when the signature has
no bandwidth threshold). -/
def sigExceeds (e : FlowEdge) (s : AttackSig) : Bool :=
  s.packet_rate_threshold < e.packet_count
    || (match s.bandwidth_threshold with
        | none => false
        | some b => b < e.bandwidth)

/-- The confidence of a signature-match detection
(detector_enhanced.py line 227). -/
def sigConfidence (e : FlowEdge) (s : AttackSig) : Rat :=
  min (99/100) (6/10 + ((e.packet_count : Rat) / (s.packet_rate_threshold : Rat)) * (3/10))

/-- The detections one (signature, edge) pair contributes. -/
def sigDetectionsFor (e : FlowEdge) (p : String × AttackSig) : List Detection :=
  if sigMatches e p.2 && sigExceeds e p.2 then
    [{ dtype := "signature_match", attack_name := some p.1, severity := "high",
       confidence := sigConfidence e p.2, target := e.target_id }]
  else []

/-- All detections one edge contributes in `_analyze_edges`: the
labeled-attack check, then the signature loop in table order. -/
def edgeDetections (e : FlowEdge) : List Detection :=
  (if e.connection_type = some "attack" then
    [{ dtype := "labeled_attack", attack_name := some (e.attack_type.getD "Unknown"),
       severity := "high", confidence := 95/100, target := e.target_id }]
   else [])
    ++ ATTACK_SIGNATURES.flatMap (sigDetectionsFor e)

/-- `_analyze_edges` (detector_enhanced.py lines 183-240). -/
def analyze_edges (edges : List FlowEdge) : List Detection :=
  edges.flatMap edgeDetections

/-- First-occurrence deduplication with an explicit seen-set: the key
order of a Python dict built by insertion. -/
def dedupAcc {α : Type} [DecidableEq α] (seen : List α) : List α → List α
  | [] => []
  | a :: as => if a ∈ seen then dedupAcc seen as else a :: dedupAcc (a :: seen) as

/-- Number of distinct elements of a list (`len(set(l))`). -/
def uniqueCount {α : Type} [DecidableEq α] (l : List α) : Nat :=
  (dedupAcc [] l).length

/-- The detection a single target group contributes in the
coordinated-attack pass, given the full attack-edge list. -/
def coordinatedFor (atk : List FlowEdge) (t : Option String) : List Detection :=
  let target_edges := atk.filter (fun e => e.target_id = t)
  if 5 ≤ target_edges.length then
    let unique_sources := uniqueCount (target_edges.map (fun e => e.source_id))
    if 5 ≤ unique_sources then
      [{ dtype := "coordinated_ddos", attack_name := none,
         severity := if 10 ≤ unique_sources then "critical" else "high",
         confidence := min (95/100) (7/10 + ((unique_sources : Rat) / 20) * (25/100)),
         target := t }]
    else []
  else []

/-- `_detect_coordinated_attacks` (detector_enhanced.py lines 324-359):
group the attack edges by target and flag every target hit by at least
5 attack edges from at least 5 distinct sources. -/
def detect_coordinated_attacks (edges : List FlowEdge) : List Detection :=
  let atk := edges.filter (fun e => e.connection_type = some "attack")
  if atk.length < 5 then []
  else (dedupAcc [] (atk.map (fun e => e.target_id))).flatMap (coordinatedFor atk)

/-- The severity counters and confidence accumulator of the
`_calculate_threat_level` loop. -/
structure SevTally where
  critical : Nat := 0
  high : Nat := 0
  medium : Nat := 0
  low : Nat := 0
  total_confidence : Rat := 0
deriving DecidableEq

/-- One iteration of the `_calculate_threat_level` loop: bump the
counter of the detection severity and accumulate its confidence. -/
def tallyStep (t : SevTally) (d : Detection) : SevTally :=
  let t1 :=
    if d.severity = "critical" then { t with critical := t.critical + 1 }
    else if d.severity = "high" then { t with high := t.high + 1 }
    else if d.severity = "medium" then { t with medium := t.medium + 1 }
    else if d.severity = "low" then { t with low := t.low + 1 }
    else t
  { t1 with total_confidence := t1.total_confidence + d.confidence }

/-- `_calculate_threat_level` (detector_enhanced.py lines 361-389),
returning (threat_level, confidence). -/
def calculate_threat_level (detections : List Detection) : String × Rat :=
  if detections.isEmpty then ("low", 1/2)
  else
    let t := detections.foldl tallyStep {}
    let avg_confidence := t.total_confidence / (detections.length : Rat)
    if 0 < t.critical then ("critical", min (95/100) avg_confidence)
    else if 3 ≤ t.high then ("high", min (9/10) avg_confidence)
    else if 1 ≤ t.high then ("high", min (85/100) avg_confidence)
    else if 5 ≤ t.medium then ("medium", min (8/10) avg_confidence)
    else if 1 ≤ t.medium then ("medium", min (75/100) avg_confidence)
    else ("low", 3/5)

/-- Arithmetic mean of the detection confidences, as the specification
words it ("mean of all detection confidences"); used to compare the
aggregation against the spec. -/
def meanConfidence (detections : List Detection) : Rat :=
  (detections.map (fun d => d.confidence)).sum / (detections.length : Rat)

/-- Severity order on the threat-level strings of the Scoring Engine,
used to state that overrides never downgrade. -/
def levelRank (l : String) : Nat :=
  if l = "CRITICAL" then 4
  else if l = "HIGH" then 3
  else if l = "MEDIUM" then 2
  else if l = "LOW" then 1
  else 0

/-- The threat level assigned by the base rules of the Scoring Engine
to an input batch (before the DDoS/APT overrides). -/
def baseLevelOf (inp : InputData) : String :=
  (scoreBase (attackCountOf (inp.edges.getD []))
    (suspiciousCountOf (inp.edges.getD [])) (inp.edges.getD []).length).1

/-- The DDoS-override condition of the Scoring Engine on an input
batch: more than five "DDoS Volumetric" attack edges. -/
def ddosCondOf (inp : InputData) : Prop :=
  hasKey (attackTypesOf (inp.edges.getD [])) "DDoS Volumetric" = true
    ∧ 5 < lookupKey (attackTypesOf (inp.edges.getD [])) "DDoS Volumetric"

instance (inp : InputData) : Decidable (ddosCondOf inp) :=
  inferInstanceAs (Decidable (_ = true ∧ _ < _))

/-! ## Concrete inputs used to instantiate the theorems -/

/-- An attack edge with no attack-type label. -/
def exAttackEdge : InEdge := { connection_type := some "attack" }

/-- A normal edge (missing connection type defaults to "normal"). -/
def exNormalEdge : InEdge := {}

/-- A Ransomware-labelled attack edge. -/
def exRansomEdge : InEdge :=
  { connection_type := some "attack", attack_type := some "Ransomware" }

/-- A batch with nodes and edges present but empty. -/
def inpEmpty : InputData := { nodes := some [], edges := some [] }

/-- A batch with one Ransomware attack edge among ten edges: the base
rules classify it LOW (rule 4). -/
def inpRansom : InputData :=
  { edges := some
      [exRansomEdge, exNormalEdge, exNormalEdge, exNormalEdge, exNormalEdge,
       exNormalEdge, exNormalEdge, exNormalEdge, exNormalEdge, exNormalEdge] }

/-- A NetFlow edge carrying a DNS-amplification signature load: UDP to
port 53 with 12000 packets. -/
def exFlowDNS : FlowEdge :=
  { target_id := some "192.168.1.10:53", protocol := some "UDP",
    packet_count := 12000 }

/-- One attack flow from the given source to the common target
"victim". -/
def exCoordEdge (src : String) : FlowEdge :=
  { source_id := some src, target_id := some "victim",
    connection_type := some "attack" }

/-- Six attack flows from six distinct sources to one target. -/
def exCoordEdges : List FlowEdge :=
  [exCoordEdge "s1", exCoordEdge "s2", exCoordEdge "s3",
   exCoordEdge "s4", exCoordEdge "s5", exCoordEdge "s6"]

/-- A single high-severity detection with confidence 0.95. -/
def exHighDetection : Detection :=
  { dtype := "signature_match", severity := "high", confidence := 95/100 }

/-- A single critical-severity detection with confidence 0.9. -/
def exCritDetection : Detection :=
  { dtype := "coordinated_ddos", severity := "critical", confidence := 9/10 }

/-- An oracle in which every LLM-backed stage fails. -/
def allErrorOracle : Oracle :=
  { det := .error "llm down", inv := .error "llm down", mon := .error "llm down",
    jud := .error "llm down", mit := .error "llm down" }

/-! # Theorems -/

/-! ## Workflow plumbing lemmas -/

/-- Every run stores the judge Decision as the final decision: the
judge node writes it and the only node that can execute later (the
mitigator) leaves it unchanged. -/
theorem runWorkflow_final_eq (t0 t1 : Rat) (inp : InputData) (o : Oracle) :
    (runWorkflow t0 t1 inp o).final_decision = some (judgeDecisionOf o.jud)
      ∧ (runWorkflow t0 t1 inp o).judge_decision = some (judgeDecisionOf o.jud) := by
  unfold runWorkflow
  dsimp only
  split <;>
    (try split) <;>
      simp [orchestratorStep, detectorStep, investigatorStep, monitorStep,
        judgeStep, mitigatorStep]

/--
Claim C1: every pipeline run that reaches termination has a non-null
final decision, the final decision is the Decision produced by the
Adjudicator (judge) stage, and no stage executed afterwards overwrites
it; in particular the Mitigator step leaves `final_decision` unchanged.
-/
theorem judge_owns_final_decision (t0 t1 : Rat) (inp : InputData) (o : Oracle) :
    (runWorkflow t0 t1 inp o).final_decision ≠ none
      ∧ (runWorkflow t0 t1 inp o).final_decision
          = (runWorkflow t0 t1 inp o).judge_decision
      ∧ (runWorkflow t0 t1 inp o).final_decision = some (judgeDecisionOf o.jud)
      ∧ (∀ (r : Except String MitPayload) (s : WFState),
          (mitigatorStep r s).final_decision = s.final_decision) := by
  obtain ⟨h1, h2⟩ := runWorkflow_final_eq t0 t1 inp o
  refine ⟨?_, ?_, h1, ?_⟩
  · rw [h1]; exact Option.some_ne_none _
  · rw [h1, h2]
  · intro r s; rfl

/-- Witness for C1 at a concrete run: the all-failure run on the empty
batch terminates with the judge fallback Decision as final decision. -/
theorem judge_owns_final_decision_witness :
    (runWorkflow 0 0 inpEmpty allErrorOracle).final_decision
      = some (judgeDecisionOf (.error "llm down")) :=
  (judge_owns_final_decision 0 0 inpEmpty allErrorOracle).2.2.1

/--
Claim C9: the Scoring Engine (Coordinator executor) is deterministic.
Two runs of the orchestrator node on the identical input batch produce
identical Decision.metadata (threat level, priority, workflow mode,
ddos/apt flags, agent priorities and raw statistics), whatever the
wall-clock readings of the two runs are: the metadata is a pure
function of the input batch.
-/
theorem orchestrator_metadata_deterministic
    (start1 finish1 start2 finish2 : Rat) (inp : InputData) :
    (orchestratorDecision start1 finish1 inp).metadata
      = (orchestratorDecision start2 finish2 inp).metadata := rfl

/-! ## Attack-type frequency-table lemmas -/

/-- Bumping key `k` adds one to its count and leaves other counts
unchanged. -/
theorem lookupKey_bumpKey (m : List (String × Nat)) (k k' : String) :
    lookupKey (bumpKey m k) k' = lookupKey m k' + (if k' = k then 1 else 0) := by
  induction m with
  | nil =>
    by_cases h : k' = k
    · simp [bumpKey, lookupKey, h]
    · simp [bumpKey, lookupKey, h, Ne.symm h]
  | cons p rest ih =>
    obtain ⟨k0, v⟩ := p
    by_cases h : k0 = k
    · subst h
      by_cases h2 : k0 = k'
      · subst h2
        simp [bumpKey, lookupKey]
      · simp [bumpKey, lookupKey, h2, Ne.symm h2]
    · by_cases h2 : k0 = k'
      · subst h2
        simp [bumpKey, lookupKey, h, Ne.symm h]
      · simp [bumpKey, lookupKey, h, h2, ih]

/-- Bumping key `k` makes it present and preserves the presence of
every other key. -/
theorem hasKey_bumpKey (m : List (String × Nat)) (k k' : String) :
    hasKey (bumpKey m k) k' = (hasKey m k' || decide (k' = k)) := by
  induction m with
  | nil =>
    by_cases h : k' = k
    · simp [bumpKey, hasKey, h]
    · simp [bumpKey, hasKey, h, Ne.symm h]
  | cons p rest ih =>
    obtain ⟨k0, v⟩ := p
    by_cases h : k0 = k
    · subst h
      by_cases h2 : k0 = k'
      · subst h2
        simp [bumpKey, hasKey]
      · simp [bumpKey, hasKey, h2, Ne.symm h2]
    · by_cases h2 : k0 = k'
      · subst h2
        simp [bumpKey, hasKey, h]
      · simp [bumpKey, hasKey, h, h2, ih]

/-- Generalized-accumulator form of the frequency-table count: the
count of key `k` after folding the orchestrator loop over `es`. -/
theorem lookupKey_foldl (es : List InEdge) (m : List (String × Nat)) (k : String) :
    lookupKey
        (es.foldl (fun m e => if e.connType = "attack" then bumpKey m e.attackLabel else m) m)
        k
      = lookupKey m k
          + es.countP (fun e => decide (e.connType = "attack") && decide (e.attackLabel = k)) := by
  induction es generalizing m with
  | nil => simp
  | cons e es ih =>
    rw [List.foldl_cons, List.countP_cons]
    by_cases ha : e.connType = "attack"
    · rw [if_pos ha, ih, lookupKey_bumpKey]
      by_cases hl : e.attackLabel = k
      · simp [ha, hl]
        try omega
      · simp [ha, hl, Ne.symm hl]
        try omega
    · rw [if_neg ha, ih]
      simp [ha]

/-- The frequency table counts exactly the attack edges carrying each
label. -/
theorem lookupKey_attackTypesOf (es : List InEdge) (k : String) :
    lookupKey (attackTypesOf es) k
      = es.countP (fun e => decide (e.connType = "attack") && decide (e.attackLabel = k)) := by
  simpa [attackTypesOf, lookupKey] using lookupKey_foldl es [] k

/-- Generalized-accumulator form of key presence after the
orchestrator loop. -/
theorem hasKey_foldl (es : List InEdge) (m : List (String × Nat)) (k : String) :
    hasKey
        (es.foldl (fun m e => if e.connType = "attack" then bumpKey m e.attackLabel else m) m)
        k
      = (hasKey m k
          || es.any (fun e => decide (e.connType = "attack") && decide (e.attackLabel = k))) := by
  induction es generalizing m with
  | nil => simp
  | cons e es ih =>
    rw [List.foldl_cons, List.any_cons]
    by_cases ha : e.connType = "attack"
    · rw [if_pos ha, ih, hasKey_bumpKey]
      by_cases hl : e.attackLabel = k
      · simp [ha, hl]
      · simp [ha, hl, Ne.symm hl, Bool.or_assoc]
    · rw [if_neg ha, ih]
      simp [ha]

/-- A key is present in the frequency table exactly when some attack
edge carries it, i.e. when its count is positive. -/
theorem hasKey_attackTypesOf (es : List InEdge) (k : String) :
    hasKey (attackTypesOf es) k = true ↔ 0 < lookupKey (attackTypesOf es) k := by
  rw [lookupKey_attackTypesOf, attackTypesOf, hasKey_foldl]
  simp [hasKey, List.countP_pos_iff, List.any_eq_true]

/-- Each per-label count is bounded by the total attack count. -/
theorem lookupKey_le_attackCount (es : List InEdge) (k : String) :
    lookupKey (attackTypesOf es) k ≤ attackCountOf es := by
  rw [lookupKey_attackTypesOf, attackCountOf]
  exact List.countP_mono_left (fun e _ h => by
    simp only [Bool.and_eq_true, decide_eq_true_eq] at h
    simp [h.1])

/-! ## Scoring-rule lemmas -/

/-- The base rules classify CRITICAL exactly on the rule-1 condition:
more than 20 attacks or an attack ratio strictly above 0.25 (and
CRITICAL always comes with immediate priority). -/
theorem scoreBase_critical_iff (ac sc te : Nat) :
    ((scoreBase ac sc te).1 = "CRITICAL" ∧ (scoreBase ac sc te).2.1 = "immediate")
      ↔ (20 < ac ∨ (25 : Rat)/100 < attackRatioFn ac te) := by
  unfold scoreBase
  dsimp only
  split
  · rename_i h; simp [h]
  · rename_i h
    split
    · simp [h]
    · split
      · simp [h]
      · split <;> simp [h]

/-- The base rules select monitoring_only mode exactly when they
classify NONE. -/
theorem scoreBase_mode_iff (ac sc te : Nat) :
    (scoreBase ac sc te).2.2 = "monitoring_only" ↔ (scoreBase ac sc te).1 = "NONE" := by
  unfold scoreBase
  dsimp only
  split
  · simp
  · split
    · simp
    · split
      · simp
      · split <;> simp

/-- The base rules only ever produce the five threat-level strings. -/
theorem scoreBase_level_cases (ac sc te : Nat) :
    (scoreBase ac sc te).1 = "CRITICAL" ∨ (scoreBase ac sc te).1 = "HIGH"
      ∨ (scoreBase ac sc te).1 = "MEDIUM" ∨ (scoreBase ac sc te).1 = "LOW"
      ∨ (scoreBase ac sc te).1 = "NONE" := by
  unfold scoreBase
  dsimp only
  split
  · simp
  · split
    · simp
    · split
      · simp
      · split <;> simp

/-- With more than three attack edges the base rules never classify
LOW or NONE (rule 3 fires at the latest). -/
theorem scoreBase_not_low_of_attacks (ac sc te : Nat) (h : 3 < ac) :
    (scoreBase ac sc te).1 ≠ "LOW" ∧ (scoreBase ac sc te).1 ≠ "NONE" := by
  unfold scoreBase
  dsimp only
  split
  · simp
  · split
    · simp
    · split
      · simp
      · rename_i h3
        exact absurd (Or.inl h) h3

/-- A NONE classification forces an attack count of zero (rule 4 would
otherwise have fired). -/
theorem scoreBase_none_attackCount (ac sc te : Nat)
    (h : (scoreBase ac sc te).1 = "NONE") : ac = 0 := by
  unfold scoreBase at h
  dsimp only at h
  split at h
  · simp at h
  · split at h
    · simp at h
    · split at h
      · simp at h
      · split at h
        · simp at h
        · rename_i h4
          omega

/-! ## Orchestrator metadata lemmas -/

/-- The workflow mode of the produced metadata is the one chosen by the
base rules (the overrides never touch it). -/
theorem orchMeta_workflow_mode (inp : InputData) :
    (orchestratorMetaOf inp).workflow_mode
      = (scoreBase (attackCountOf (inp.edges.getD []))
          (suspiciousCountOf (inp.edges.getD [])) (inp.edges.getD []).length).2.2 := rfl

/-- The produced threat level, written through the two overrides: the
DDoS override first forces CRITICAL, then the APT override maps LOW to
HIGH and leaves everything else unchanged. -/
theorem orchMeta_threat_level (inp : InputData) :
    (orchestratorMetaOf inp).threat_level
      = (if sophisticatedAttacks.any
            (fun a => hasKey (attackTypesOf (inp.edges.getD [])) a) = true then
          (if (if ddosCondOf inp then "CRITICAL" else baseLevelOf inp) = "LOW"
            then "HIGH"
            else (if ddosCondOf inp then "CRITICAL" else baseLevelOf inp))
        else (if ddosCondOf inp then "CRITICAL" else baseLevelOf inp)) := rfl

/-- The apt_detected flag of the produced metadata. -/
theorem orchMeta_apt_flag (inp : InputData) :
    (orchestratorMetaOf inp).apt_detected
      = sophisticatedAttacks.any
          (fun a => hasKey (attackTypesOf (inp.edges.getD [])) a) := rfl

/-- A LOW base classification rules the DDoS override out: the
override needs more than five DDoS Volumetric attack edges, which
already forces at least a MEDIUM base level. -/
theorem not_ddos_of_baseLow (inp : InputData) (hb : baseLevelOf inp = "LOW") :
    ¬ ddosCondOf inp := by
  intro hd
  obtain ⟨-, h5⟩ := hd
  have hle := lookupKey_le_attackCount (inp.edges.getD []) "DDoS Volumetric"
  have hac : 3 < attackCountOf (inp.edges.getD []) := by omega
  exact (scoreBase_not_low_of_attacks (attackCountOf (inp.edges.getD []))
    (suspiciousCountOf (inp.edges.getD [])) (inp.edges.getD []).length hac).1 hb

/-- A NONE base classification also rules the DDoS override out. -/
theorem not_ddos_of_baseNone (inp : InputData) (hb : baseLevelOf inp = "NONE") :
    ¬ ddosCondOf inp := by
  intro hd
  obtain ⟨-, h5⟩ := hd
  have hle := lookupKey_le_attackCount (inp.edges.getD []) "DDoS Volumetric"
  have hac := scoreBase_none_attackCount (attackCountOf (inp.edges.getD []))
    (suspiciousCountOf (inp.edges.getD [])) (inp.edges.getD []).length hb
  omega

/-- The produced threat level is NONE exactly when the base rules say
NONE: the DDoS override cannot fire on a NONE batch and the APT
override never produces NONE. -/
theorem orchMeta_none_iff (inp : InputData) :
    (orchestratorMetaOf inp).threat_level = "NONE" ↔ baseLevelOf inp = "NONE" := by
  rw [orchMeta_threat_level]
  by_cases hd : ddosCondOf inp
  · have hb : baseLevelOf inp ≠ "NONE" := fun hb => not_ddos_of_baseNone inp hb hd
    by_cases ha : sophisticatedAttacks.any
        (fun a => hasKey (attackTypesOf (inp.edges.getD [])) a) = true <;>
      simp [hd, ha, hb]
  · by_cases ha : sophisticatedAttacks.any
        (fun a => hasKey (attackTypesOf (inp.edges.getD [])) a) = true
    · by_cases hb : baseLevelOf inp = "LOW" <;> simp [hd, ha, hb]
    · simp [hd, ha]

/--
Claim C10: for every input batch, the Coordinator metadata produced by
the rule-based executor has workflow_mode "monitoring_only" exactly
when its threat_level is "NONE"; consequently a produced Decision with
threat_level "NONE" always takes the monitoring_only routing branch to
the Monitor, never the skip_to_judge branch to the Adjudicator.
-/
theorem monitoring_mode_iff_none (inp : InputData) :
    ((orchestratorMetaOf inp).workflow_mode = "monitoring_only"
        ↔ (orchestratorMetaOf inp).threat_level = "NONE")
      ∧ ((orchestratorMetaOf inp).threat_level = "NONE" →
          route_after_orchestrator (some (routeMetaOf (orchestratorMetaOf inp)))
              = "monitoring_only"
            ∧ orchRouteTarget
                (route_after_orchestrator (some (routeMetaOf (orchestratorMetaOf inp))))
                = some "monitor"
            ∧ route_after_orchestrator (some (routeMetaOf (orchestratorMetaOf inp)))
                ≠ "skip_to_judge") := by
  have hmode : (orchestratorMetaOf inp).workflow_mode = "monitoring_only"
      ↔ (orchestratorMetaOf inp).threat_level = "NONE" := by
    rw [orchMeta_workflow_mode, orchMeta_none_iff]
    exact scoreBase_mode_iff _ _ _
  refine ⟨hmode, fun hnone => ?_⟩
  have hm := hmode.mpr hnone
  have hroute : route_after_orchestrator (some (routeMetaOf (orchestratorMetaOf inp)))
      = "monitoring_only" := by
    simp [route_after_orchestrator, routeMetaOf, hm]
  refine ⟨hroute, ?_, ?_⟩
  · rw [hroute]; rfl
  · rw [hroute]; simp

/-- The empty batch classifies NONE. -/
theorem orchMeta_inpEmpty_none :
    (orchestratorMetaOf inpEmpty).threat_level = "NONE" := by
  rw [orchMeta_none_iff]
  norm_num [baseLevelOf, inpEmpty, attackCountOf, suspiciousCountOf, scoreBase,
    attackRatioFn, suspiciousRatioFn, threatRatioFn]

/-- Witness for C10 at the empty batch: its level is NONE and the run
routes to the monitor. -/
theorem monitoring_mode_iff_none_witness :
    (orchestratorMetaOf inpEmpty).threat_level = "NONE"
      ∧ route_after_orchestrator (some (routeMetaOf (orchestratorMetaOf inpEmpty)))
          = "monitoring_only" :=
  ⟨orchMeta_inpEmpty_none,
    ((monitoring_mode_iff_none inpEmpty).2 orchMeta_inpEmpty_none).1⟩

/--
Claim C5: the Scoring Engine input attackCount 25, totalEdges 100
(attack ratio exactly 0.25) classifies CRITICAL with immediate
priority; in general rule 1 fires exactly when attackCount is greater
than 20 or the attack ratio is strictly greater than 0.25, so an attack
ratio of exactly 0.25 alone (attackCount 5, totalEdges 20) does not
trigger rule 1 while a ratio of 0.26 (attackCount 13, totalEdges 50)
does.
-/
theorem scoring_rule1_boundary :
    (∀ sc : Nat,
        (scoreBase 25 sc 100).1 = "CRITICAL" ∧ (scoreBase 25 sc 100).2.1 = "immediate")
      ∧ (∀ ac sc te : Nat,
          (((scoreBase ac sc te).1 = "CRITICAL" ∧ (scoreBase ac sc te).2.1 = "immediate")
            ↔ (20 < ac ∨ (25 : Rat)/100 < attackRatioFn ac te)))
      ∧ attackRatioFn 25 100 = 25/100
      ∧ attackRatioFn 5 20 = 25/100
      ∧ (scoreBase 5 0 20).1 = "HIGH"
      ∧ attackRatioFn 13 50 = 26/100
      ∧ (scoreBase 13 0 50).1 = "CRITICAL" := by
  refine ⟨?_, scoreBase_critical_iff, ?_, ?_, ?_, ?_, ?_⟩
  · intro sc
    have h20 : (20 : Nat) < 25 := by norm_num
    unfold scoreBase
    rw [if_pos (Or.inl h20)]
    exact ⟨rfl, rfl⟩
  · norm_num [attackRatioFn]
  · norm_num [attackRatioFn]
  · norm_num [scoreBase, attackRatioFn, suspiciousRatioFn, threatRatioFn]
  · norm_num [attackRatioFn]
  · norm_num [scoreBase, attackRatioFn, suspiciousRatioFn, threatRatioFn]

/-- Witness for C5 at the concrete 25-of-100 input. -/
theorem scoring_rule1_boundary_witness :
    (scoreBase 25 0 100).1 = "CRITICAL" ∧ (scoreBase 25 0 100).2.1 = "immediate" :=
  scoring_rule1_boundary.1 0

/--
Claim C6: whenever the attack-type frequency table contains one of
APT Exfiltration, Zero-Day Exploit or Ransomware, the produced metadata
has apt_detected true and the threat level is the APT override of the
level entering the override (LOW is raised to HIGH, everything else is
kept); the level entering the override is LOW exactly when the base
rules said LOW, so the level is raised to HIGH exactly on base level
LOW and the override never downgrades.
-/
theorem apt_override_raises_low_only (inp : InputData)
    (h : ∃ a ∈ sophisticatedAttacks,
        hasKey (attackTypesOf (inp.edges.getD [])) a = true) :
    (orchestratorMetaOf inp).apt_detected = true
      ∧ (orchestratorMetaOf inp).threat_level
          = (if (if ddosCondOf inp then "CRITICAL" else baseLevelOf inp) = "LOW"
              then "HIGH"
              else (if ddosCondOf inp then "CRITICAL" else baseLevelOf inp))
      ∧ ((if ddosCondOf inp then "CRITICAL" else baseLevelOf inp) = "LOW"
          ↔ baseLevelOf inp = "LOW")
      ∧ (baseLevelOf inp = "LOW" → (orchestratorMetaOf inp).threat_level = "HIGH")
      ∧ ((orchestratorMetaOf inp).threat_level = "HIGH" ∧ baseLevelOf inp ≠ "HIGH"
          ↔ baseLevelOf inp = "LOW")
      ∧ levelRank (baseLevelOf inp) ≤ levelRank (orchestratorMetaOf inp).threat_level := by
  have hany : sophisticatedAttacks.any
      (fun a => hasKey (attackTypesOf (inp.edges.getD [])) a) = true := by
    rw [List.any_eq_true]
    obtain ⟨a, ha, hk⟩ := h
    exact ⟨a, ha, hk⟩
  have hth : (orchestratorMetaOf inp).threat_level
      = (if (if ddosCondOf inp then "CRITICAL" else baseLevelOf inp) = "LOW"
          then "HIGH"
          else (if ddosCondOf inp then "CRITICAL" else baseLevelOf inp)) := by
    rw [orchMeta_threat_level, if_pos hany]
  have hpre : (if ddosCondOf inp then "CRITICAL" else baseLevelOf inp) = "LOW"
      ↔ baseLevelOf inp = "LOW" := by
    by_cases hd : ddosCondOf inp
    · simp only [if_pos hd]
      constructor
      · intro hc; exact absurd hc (by decide)
      · intro hb; exact absurd hd (not_ddos_of_baseLow inp hb)
    · simp [hd]
  have hlowHigh : baseLevelOf inp = "LOW" →
      (orchestratorMetaOf inp).threat_level = "HIGH" := by
    intro hb
    rw [hth, if_pos (hpre.mpr hb)]
  refine ⟨?_, hth, hpre, hlowHigh, ⟨?_, ?_⟩, ?_⟩
  · rw [orchMeta_apt_flag]; exact hany
  · rintro ⟨hH, hne⟩
    by_cases hl : (if ddosCondOf inp then "CRITICAL" else baseLevelOf inp) = "LOW"
    · exact hpre.mp hl
    · rw [hth, if_neg hl] at hH
      by_cases hd : ddosCondOf inp
      · rw [if_pos hd] at hH
        exact absurd hH (by decide)
      · rw [if_neg hd] at hH
        exact absurd hH hne
  · intro hb
    exact ⟨hlowHigh hb, by rw [hb]; decide⟩
  · rw [hth]
    by_cases hd : ddosCondOf inp
    · rw [if_pos hd] at hpre ⊢
      have hcases := scoreBase_level_cases (attackCountOf (inp.edges.getD []))
        (suspiciousCountOf (inp.edges.getD [])) (inp.edges.getD []).length
      have : levelRank (baseLevelOf inp) ≤ 4 := by
        rcases hcases with h | h | h | h | h <;>
          · rw [baseLevelOf, h]; decide
      simpa [levelRank] using this
    · rw [if_neg hd] at hpre ⊢
      by_cases hb : baseLevelOf inp = "LOW"
      · rw [if_pos hb, hb]; decide
      · rw [if_neg hb]

/-- The ten-edge Ransomware batch classifies LOW under the base
rules. -/
theorem baseLevel_inpRansom : baseLevelOf inpRansom = "LOW" := by
  have hac : attackCountOf (inpRansom.edges.getD []) = 1 := by decide
  have hsc : suspiciousCountOf (inpRansom.edges.getD []) = 0 := by decide
  have hlen : (inpRansom.edges.getD []).length = 10 := by decide
  rw [baseLevelOf, hac, hsc, hlen]
  norm_num [scoreBase, attackRatioFn, suspiciousRatioFn, threatRatioFn]

/-- Witness for C6 at the ten-edge Ransomware batch: apt_detected is
set and the LOW base level is raised to HIGH. -/
theorem apt_override_raises_low_only_witness :
    (orchestratorMetaOf inpRansom).apt_detected = true
      ∧ (orchestratorMetaOf inpRansom).threat_level = "HIGH" :=
  ⟨(apt_override_raises_low_only inpRansom (by decide)).1,
    (apt_override_raises_low_only inpRansom (by decide)).2.2.2.1 baseLevel_inpRansom⟩

/-! ## Missing-routing-key behaviour (error handling of the Routing
Table) -/

/--
Counterexample to claim C2 as stated: a Coordinator Decision whose
metadata is missing both routing keys is routed to the judge
(Adjudicator) through the skip_to_judge branch, because the missing
threat_level defaults to "NONE"; the claim says it goes to the
Detector (the "otherwise" branch).
-/
theorem routing_missing_keys_counterexample :
    route_after_orchestrator (some ({} : OrchMetaRec)) = "skip_to_judge"
      ∧ orchRouteTarget (route_after_orchestrator (some ({} : OrchMetaRec)))
          = some "judge"
      ∧ orchRouteTarget (route_after_orchestrator (some ({} : OrchMetaRec)))
          ≠ some "detector" := by
  refine ⟨rfl, rfl, by decide⟩

/--
Claim C2 (amended): missing routing keys take the documented `dict.get`
defaults and are never fatal.  For the Coordinator row the default
threat_level is "NONE", so a Decision missing both keys routes to the
Adjudicator (skip_to_judge), not the Detector; only a missing
workflow_mode with a present non-NONE threat_level falls to the
full_analysis branch to the Detector.  For the Detector row missing
keys route to the Monitor (no_threats), and for the Adjudicator row
missing keys terminate with no action.  Every metadata value routes to
one of the declared branches, so missing keys are never fatal.
-/
theorem routing_missing_keys_defaults :
    route_after_orchestrator (some ({} : OrchMetaRec)) = "skip_to_judge"
      ∧ (∀ tl : String, tl ≠ "NONE" →
          route_after_orchestrator (some ({ threat_level := some tl } : OrchMetaRec))
            = "full_analysis")
      ∧ route_after_detector (some ({} : DetMetaRec)) = "no_threats"
      ∧ detRouteTarget (route_after_detector (some ({} : DetMetaRec))) = some "monitor"
      ∧ route_after_judge (some ({} : JudgeMetaRec)) = "no_action"
      ∧ route_after_judge
          (some ({ final_assessment := some ({} : FinalAssessRec) } : JudgeMetaRec))
          = "no_action"
      ∧ (∀ m, route_after_orchestrator m = "monitoring_only"
          ∨ route_after_orchestrator m = "skip_to_judge"
          ∨ route_after_orchestrator m = "full_analysis")
      ∧ (∀ m, route_after_detector m = "investigate"
          ∨ route_after_detector m = "skip_to_monitor"
          ∨ route_after_detector m = "no_threats")
      ∧ (∀ m, route_after_judge m = "human_review"
          ∨ route_after_judge m = "mitigate"
          ∨ route_after_judge m = "no_action") := by
  refine ⟨rfl, ?_, rfl, rfl, rfl, rfl, ?_, ?_, ?_⟩
  · intro tl h
    simp [route_after_orchestrator, h]
  · intro m
    match m with
    | none => simp [route_after_orchestrator]
    | some mm =>
      unfold route_after_orchestrator
      dsimp only
      split
      · simp
      · split <;> simp
  · intro m
    match m with
    | none => simp [route_after_detector]
    | some mm =>
      unfold route_after_detector
      dsimp only
      split
      · simp
      · split <;> simp
  · intro m
    match m with
    | none => simp [route_after_judge]
    | some mm =>
      unfold route_after_judge
      dsimp only
      split
      · simp
      · split <;> simp

/-- Witness for amended C2: a present non-NONE threat level with a
missing workflow_mode still routes to the Detector. -/
theorem routing_missing_keys_defaults_witness :
    route_after_orchestrator (some ({ threat_level := some "LOW" } : OrchMetaRec))
      = "full_analysis" :=
  routing_missing_keys_defaults.2.1 "LOW" (by decide)

/-! ## Executor-failure fallbacks -/

/--
Counterexample to claim C3 as stated: the Monitor stage's failure
fallback Decision does carry confidence 0.3, but its label is
"monitoring_unknown", which does not end in the suffix "_error" as the
claim requires of every stage.
-/
theorem monitor_error_label_counterexample :
    (monitorDecisionOf (.error "LLM unavailable")).confidence = 3/10
      ∧ (monitorDecisionOf (.error "LLM unavailable")).decision = "monitoring_unknown"
      ∧ strEndsWith (monitorDecisionOf (.error "LLM unavailable")).decision "_error"
          = false := by
  refine ⟨rfl, rfl, by decide⟩

/--
Claim C3 (amended): on executor failure every LLM-backed stage
synthesizes a degraded Decision with confidence exactly 0.3 and the
run keeps routing to a terminal state with a final decision instead of
aborting; the degraded label ends in "_error" for the Detector,
Investigator, Adjudicator and Mitigator stages, but the Monitor's
degraded label is "monitoring_unknown", which does not end in
"_error".
-/
theorem executor_failure_degraded (e : String) :
    (detectorDecisionOf (.error e)).confidence = 3/10
      ∧ strEndsWith (detectorDecisionOf (.error e)).decision "_error" = true
      ∧ (investigatorDecisionOf (.error e)).confidence = 3/10
      ∧ strEndsWith (investigatorDecisionOf (.error e)).decision "_error" = true
      ∧ (judgeDecisionOf (.error e)).confidence = 3/10
      ∧ strEndsWith (judgeDecisionOf (.error e)).decision "_error" = true
      ∧ (mitigatorDecisionOf (.error e)).confidence = 3/10
      ∧ strEndsWith (mitigatorDecisionOf (.error e)).decision "_error" = true
      ∧ (monitorDecisionOf (.error e)).confidence = 3/10
      ∧ (monitorDecisionOf (.error e)).decision = "monitoring_unknown"
      ∧ strEndsWith (monitorDecisionOf (.error e)).decision "_error" = false
      ∧ (∀ (t0 t1 : Rat) (inp : InputData) (o : Oracle),
          (runWorkflow t0 t1 inp o).final_decision ≠ none)
      ∧ (∀ (t0 t1 : Rat) (inp : InputData),
          (runWorkflow t0 t1 inp allErrorOracle).final_decision
            = some (judgeDecisionOf (.error "llm down"))) := by
  refine ⟨rfl, ?_, rfl, ?_, rfl, ?_, rfl, ?_, rfl, rfl, ?_, ?_, ?_⟩
  · show strEndsWith "detection_error" "_error" = true
    decide
  · show strEndsWith "investigation_error" "_error" = true
    decide
  · show strEndsWith "judgment_error" "_error" = true
    decide
  · show strEndsWith "mitigation_error" "_error" = true
    decide
  · show strEndsWith ("monitoring_" ++ "unknown") "_error" = false
    decide
  · intro t0 t1 inp o
    rw [(runWorkflow_final_eq t0 t1 inp o).1]
    exact Option.some_ne_none _
  · intro t0 t1 inp
    exact (runWorkflow_final_eq t0 t1 inp allErrorOracle).1

/-- Witness for amended C3 at a concrete error message: the Detector
fallback carries confidence 0.3 and an _error label while the Monitor
fallback carries confidence 0.3 with the monitoring_unknown label. -/
theorem executor_failure_degraded_witness :
    (detectorDecisionOf (.error "boom")).confidence = 3/10
      ∧ strEndsWith (detectorDecisionOf (.error "boom")).decision "_error" = true
      ∧ (monitorDecisionOf (.error "boom")).confidence = 3/10
      ∧ (monitorDecisionOf (.error "boom")).decision = "monitoring_unknown" :=
  ⟨(executor_failure_degraded "boom").1, (executor_failure_degraded "boom").2.1,
    (executor_failure_degraded "boom").2.2.2.2.2.2.2.2.1,
    (executor_failure_degraded "boom").2.2.2.2.2.2.2.2.2.1⟩

/-! ## Threat-level aggregation lemmas -/

/-- One tally step bumps the critical counter exactly on a critical
detection. -/
theorem tallyStep_critical (t : SevTally) (d : Detection) :
    (tallyStep t d).critical = t.critical + (if d.severity = "critical" then 1 else 0) := by
  unfold tallyStep
  dsimp only
  split_ifs <;> simp_all

/-- One tally step bumps the high counter exactly on a high
detection. -/
theorem tallyStep_high (t : SevTally) (d : Detection) :
    (tallyStep t d).high = t.high + (if d.severity = "high" then 1 else 0) := by
  unfold tallyStep
  dsimp only
  split_ifs <;> simp_all

/-- One tally step bumps the medium counter exactly on a medium
detection. -/
theorem tallyStep_medium (t : SevTally) (d : Detection) :
    (tallyStep t d).medium = t.medium + (if d.severity = "medium" then 1 else 0) := by
  unfold tallyStep
  dsimp only
  split_ifs <;> simp_all

/-- Every tally step accumulates the detection confidence. -/
theorem tallyStep_conf (t : SevTally) (d : Detection) :
    (tallyStep t d).total_confidence = t.total_confidence + d.confidence := by
  unfold tallyStep
  dsimp only
  split_ifs <;> simp_all

/-- The folded tally counts the critical detections. -/
theorem foldl_tally_critical (ds : List Detection) (t0 : SevTally) :
    (ds.foldl tallyStep t0).critical
      = t0.critical + ds.countP (fun d => d.severity = "critical") := by
  induction ds generalizing t0 with
  | nil => simp
  | cons d ds ih =>
    rw [List.foldl_cons, List.countP_cons, ih, tallyStep_critical]
    by_cases h : d.severity = "critical" <;> (simp [h]; try omega)

/-- The folded tally counts the high detections. -/
theorem foldl_tally_high (ds : List Detection) (t0 : SevTally) :
    (ds.foldl tallyStep t0).high
      = t0.high + ds.countP (fun d => d.severity = "high") := by
  induction ds generalizing t0 with
  | nil => simp
  | cons d ds ih =>
    rw [List.foldl_cons, List.countP_cons, ih, tallyStep_high]
    by_cases h : d.severity = "high" <;> (simp [h]; try omega)

/-- The folded tally counts the medium detections. -/
theorem foldl_tally_medium (ds : List Detection) (t0 : SevTally) :
    (ds.foldl tallyStep t0).medium
      = t0.medium + ds.countP (fun d => d.severity = "medium") := by
  induction ds generalizing t0 with
  | nil => simp
  | cons d ds ih =>
    rw [List.foldl_cons, List.countP_cons, ih, tallyStep_medium]
    by_cases h : d.severity = "medium" <;> (simp [h]; try omega)

/-- The folded tally sums the detection confidences. -/
theorem foldl_tally_conf (ds : List Detection) (t0 : SevTally) :
    (ds.foldl tallyStep t0).total_confidence
      = t0.total_confidence + (ds.map (fun d => d.confidence)).sum := by
  induction ds generalizing t0 with
  | nil => simp
  | cons d ds ih =>
    rw [List.foldl_cons, List.map_cons, List.sum_cons, ih, tallyStep_conf]
    ring

/--
Counterexample to claim C4 as stated: the empty detection list yields
confidence 0.5, not 0.6, and a non-empty list needs no mean either: a
single high-severity detection of confidence 0.95 yields the capped
confidence 0.85, not the arithmetic mean 0.95.
-/
theorem aggregate_confidence_counterexample :
    calculate_threat_level [] = ("low", 1/2)
      ∧ ((1 : Rat)/2) ≠ 3/5
      ∧ (calculate_threat_level [exHighDetection]).2 = 85/100
      ∧ meanConfidence [exHighDetection] = 95/100
      ∧ (calculate_threat_level [exHighDetection]).2
          ≠ meanConfidence [exHighDetection] := by
  refine ⟨rfl, by norm_num, ?_, ?_, ?_⟩
  · simp [calculate_threat_level, tallyStep, exHighDetection]
    all_goals norm_num
  · simp [meanConfidence, exHighDetection]
  · simp [calculate_threat_level, tallyStep, meanConfidence, exHighDetection]
    all_goals norm_num

/--
Claim C4 (amended): for every non-empty detection list the aggregated
overall confidence is the arithmetic mean of the detection confidences
capped at a severity-dependent bound (0.95 with a critical detection,
0.9 with at least three high, 0.85 with at least one high, 0.8 with at
least five medium, 0.75 with at least one medium), and is the constant
0.6 when no detection is critical, high or medium; for the empty
detection list the overall confidence is 0.5 (not 0.6).
-/
theorem aggregate_confidence_characterization (ds : List Detection) (h : ds ≠ []) :
    calculate_threat_level ds
        = (if 0 < ds.countP (fun d => d.severity = "critical") then
            ("critical", min (95/100) (meanConfidence ds))
          else if 3 ≤ ds.countP (fun d => d.severity = "high") then
            ("high", min (9/10) (meanConfidence ds))
          else if 1 ≤ ds.countP (fun d => d.severity = "high") then
            ("high", min (85/100) (meanConfidence ds))
          else if 5 ≤ ds.countP (fun d => d.severity = "medium") then
            ("medium", min (8/10) (meanConfidence ds))
          else if 1 ≤ ds.countP (fun d => d.severity = "medium") then
            ("medium", min (75/100) (meanConfidence ds))
          else ("low", 3/5))
      ∧ calculate_threat_level [] = ("low", 1/2) := by
  refine ⟨?_, rfl⟩
  have hne : ds.isEmpty = false := by
    cases ds with
    | nil => exact absurd rfl h
    | cons d ds => rfl
  rw [calculate_threat_level, if_neg (by simp [hne])]
  have hc := foldl_tally_critical ds {}
  have hh := foldl_tally_high ds {}
  have hm := foldl_tally_medium ds {}
  have ht := foldl_tally_conf ds {}
  simp only [hc, hh, hm, ht, meanConfidence]
  norm_num

/-- Witness for amended C4 at a one-element critical list. -/
theorem aggregate_confidence_characterization_witness :
    ([exCritDetection] : List Detection) ≠ []
      ∧ calculate_threat_level [exCritDetection]
          = ("critical", min (95/100) (meanConfidence [exCritDetection])) := by
  have h : ([exCritDetection] : List Detection) ≠ [] := by simp
  refine ⟨h, ?_⟩
  have hthm := (aggregate_confidence_characterization [exCritDetection] h).1
  rw [hthm]
  simp [exCritDetection]

/-! ## Signature-match and coordinated-attack lemmas -/

/-- Membership in the seen-set deduplication: exactly the elements of
the list outside the seen-set. -/
theorem mem_dedupAcc {α : Type} [DecidableEq α] (l : List α) (seen : List α) (a : α) :
    a ∈ dedupAcc seen l ↔ a ∈ l ∧ a ∉ seen := by
  induction l generalizing seen with
  | nil => simp [dedupAcc]
  | cons b bs ih =>
    unfold dedupAcc
    by_cases hb : b ∈ seen
    · rw [if_pos hb, ih]
      by_cases hab : a = b <;> simp [hab, hb]
    · rw [if_neg hb]
      by_cases hab : a = b <;> simp [hab, hb, ih]

/-- The signature names of `ATTACK_SIGNATURES` are pairwise
distinct. -/
theorem sigNames_nodup : (ATTACK_SIGNATURES.map Prod.fst).Nodup := by decide

/-- The Boolean match-and-threshold test of one signature, spelled out
as the specification words it: the signature port is unconstrained or
equals the extracted target port, the signature protocol is
unconstrained or equals the uppercased edge protocol, and the packet
count or the bandwidth strictly exceeds the corresponding signature
threshold. -/
theorem sigCond_iff (e : FlowEdge) (s : AttackSig) :
    (sigMatches e s && sigExceeds e s) = true
      ↔ ((s.port = none ∨ extractPort (e.target_id.getD "") = s.port)
          ∧ (s.protocol = none ∨ some e.protoUpper = s.protocol)
          ∧ (s.packet_rate_threshold < e.packet_count
              ∨ ∃ b, s.bandwidth_threshold = some b ∧ b < e.bandwidth)) := by
  unfold sigMatches sigExceeds
  cases hp : s.port <;> cases hpr : s.protocol <;> cases hb : s.bandwidth_threshold <;>
    (simp [hp, hpr, hb]; try tauto)

/--
Claim C7: a signature emits a signature_match detection for an edge
exactly when its port constraint (none matches anything) and protocol
constraint both hold and the packet count or bandwidth strictly
exceeds the signature threshold, with confidence
min(0.99, 0.6 + (packetCount/packetThreshold) * 0.3); in particular
every UDP edge to target port 53 with packet count 12000 produces a
DDoS-DNS signature_match of confidence
min(0.99, 0.6 + (12000/10000) * 0.3) = 0.96, hence at least 0.6.
-/
theorem signature_match_characterization :
    (∀ (e : FlowEdge) (name : String) (s : AttackSig),
        (name, s) ∈ ATTACK_SIGNATURES →
        ((∃ d ∈ analyze_edges [e],
            d.dtype = "signature_match" ∧ d.attack_name = some name
              ∧ d.confidence = sigConfidence e s)
          ↔ ((s.port = none ∨ extractPort (e.target_id.getD "") = s.port)
              ∧ (s.protocol = none ∨ some e.protoUpper = s.protocol)
              ∧ (s.packet_rate_threshold < e.packet_count
                  ∨ ∃ b, s.bandwidth_threshold = some b ∧ b < e.bandwidth))))
      ∧ (∀ (es : List FlowEdge) (e : FlowEdge), e ∈ es →
          e.protocol = some "UDP" →
          extractPort (e.target_id.getD "") = some 53 →
          e.packet_count = 12000 →
          ∃ d ∈ analyze_edges es,
            d.dtype = "signature_match" ∧ d.attack_name = some "DDoS-DNS"
              ∧ d.confidence = min (99/100) (6/10 + ((12000 : Rat)/10000) * (3/10))
              ∧ (6/10 : Rat) ≤ d.confidence) := by
  constructor
  · intro e name s hmem
    rw [← sigCond_iff]
    constructor
    · rintro ⟨d, hd, hsig, hname, -⟩
      simp only [analyze_edges, List.flatMap_cons, List.flatMap_nil, List.append_nil] at hd
      unfold edgeDetections at hd
      rcases List.mem_append.mp hd with hd | hd
      · split at hd <;> simp_all
      · obtain ⟨⟨n', s'⟩, hmem', hd'⟩ := List.mem_flatMap.mp hd
        unfold sigDetectionsFor at hd'
        split at hd'
        · rename_i hcond
          simp only [List.mem_singleton] at hd'
          subst hd'
          have hn : n' = name := Option.some.inj hname
          have hps : (n', s') = (name, s) :=
            List.inj_on_of_nodup_map sigNames_nodup hmem' hmem hn
          have hs : s' = s := congrArg Prod.snd hps
          rw [← hs]
          exact hcond
        · simp at hd'
    · intro hcond
      refine ⟨⟨"signature_match", some name, "high", sigConfidence e s, e.target_id⟩,
        ?_, rfl, rfl, rfl⟩
      simp only [analyze_edges, List.flatMap_cons, List.flatMap_nil, List.append_nil]
      unfold edgeDetections
      refine List.mem_append.mpr (Or.inr ?_)
      refine List.mem_flatMap.mpr ⟨(name, s), hmem, ?_⟩
      unfold sigDetectionsFor
      rw [if_pos hcond]
      exact List.mem_singleton.mpr rfl
  · intro es e he hproto hport hpc
    have hup : e.protoUpper = "UDP" := by
      rw [FlowEdge.protoUpper, hproto]
      decide
    set dnsSig : AttackSig :=
      { port := some 53, protocol := some "UDP",
        packet_rate_threshold := 10000, bandwidth_threshold := some 1000 } with hdns
    have hcond : (sigMatches e dnsSig && sigExceeds e dnsSig) = true := by
      rw [sigCond_iff]
      refine ⟨Or.inr ?_, Or.inr ?_, Or.inl ?_⟩
      · exact hport
      · rw [hup]
      · rw [hpc]
        norm_num
    refine ⟨⟨"signature_match", some "DDoS-DNS", "high", sigConfidence e dnsSig,
        e.target_id⟩, ?_, rfl, rfl, ?_, ?_⟩
    · refine List.mem_flatMap.mpr ⟨e, he, ?_⟩
      unfold edgeDetections
      refine List.mem_append.mpr (Or.inr ?_)
      refine List.mem_flatMap.mpr ⟨("DDoS-DNS", dnsSig), by rw [hdns]; decide, ?_⟩
      unfold sigDetectionsFor
      rw [if_pos hcond]
      exact List.mem_singleton.mpr rfl
    · show sigConfidence e dnsSig = _
      unfold sigConfidence
      rw [hpc, hdns]
      norm_num
    · show (6/10 : Rat) ≤ sigConfidence e dnsSig
      unfold sigConfidence
      rw [hpc, hdns]
      norm_num

/-- Witness for C7: the concrete UDP port-53 edge with 12000 packets
produces the DDoS-DNS signature match of confidence 0.96. -/
theorem signature_match_characterization_witness :
    ∃ d ∈ analyze_edges [exFlowDNS],
      d.dtype = "signature_match" ∧ d.attack_name = some "DDoS-DNS"
        ∧ d.confidence = min (99/100) (6/10 + ((12000 : Rat)/10000) * (3/10))
        ∧ (6/10 : Rat) ≤ d.confidence :=
  signature_match_characterization.2 [exFlowDNS] exFlowDNS
    (List.mem_singleton.mpr rfl) rfl (by decide) rfl

/--
Claim C8: every target hit by at least 5 attack edges from at least 5
distinct sources yields a coordinated_ddos detection for that target,
with severity critical when there are at least 10 distinct sources and
high otherwise, and confidence min(0.95, 0.7 + (sources/20) * 0.25);
in particular six distinct sources each sending one attack edge to a
common target yield a coordinated_ddos detection of severity high.
-/
theorem coordinated_ddos_detection :
    (∀ (edges : List FlowEdge) (t : Option String),
        5 ≤ ((edges.filter (fun e => e.connection_type = some "attack")).filter
            (fun e => e.target_id = t)).length →
        5 ≤ uniqueCount
            (((edges.filter (fun e => e.connection_type = some "attack")).filter
              (fun e => e.target_id = t)).map (fun e => e.source_id)) →
        ∃ d ∈ detect_coordinated_attacks edges,
          d.dtype = "coordinated_ddos" ∧ d.target = t
            ∧ d.severity
                = (if 10 ≤ uniqueCount
                      (((edges.filter (fun e => e.connection_type = some "attack")).filter
                        (fun e => e.target_id = t)).map (fun e => e.source_id))
                    then "critical" else "high")
            ∧ d.confidence
                = min (95/100)
                    (7/10 + ((uniqueCount
                        (((edges.filter (fun e => e.connection_type = some "attack")).filter
                          (fun e => e.target_id = t)).map (fun e => e.source_id)) : Rat)
                      / 20) * (25/100)))
      ∧ (∃ d ∈ detect_coordinated_attacks exCoordEdges,
          d.dtype = "coordinated_ddos" ∧ d.target = some "victim"
            ∧ d.severity = "high"
            ∧ d.confidence = min (95/100) (7/10 + ((6 : Rat)/20) * (25/100))) := by
  have hgen : ∀ (edges : List FlowEdge) (t : Option String),
      5 ≤ ((edges.filter (fun e => e.connection_type = some "attack")).filter
          (fun e => e.target_id = t)).length →
      5 ≤ uniqueCount
          (((edges.filter (fun e => e.connection_type = some "attack")).filter
            (fun e => e.target_id = t)).map (fun e => e.source_id)) →
      ∃ d ∈ detect_coordinated_attacks edges,
        d.dtype = "coordinated_ddos" ∧ d.target = t
          ∧ d.severity
              = (if 10 ≤ uniqueCount
                    (((edges.filter (fun e => e.connection_type = some "attack")).filter
                      (fun e => e.target_id = t)).map (fun e => e.source_id))
                  then "critical" else "high")
          ∧ d.confidence
              = min (95/100)
                  (7/10 + ((uniqueCount
                      (((edges.filter (fun e => e.connection_type = some "attack")).filter
                        (fun e => e.target_id = t)).map (fun e => e.source_id)) : Rat)
                    / 20) * (25/100)) := by
    intro edges t h5 hu
    have hlen : ¬ (edges.filter (fun e => e.connection_type = some "attack")).length < 5 := by
      have := List.length_filter_le (fun e => e.target_id = t)
        (edges.filter (fun e => e.connection_type = some "attack"))
      omega
    obtain ⟨e0, he0⟩ := List.exists_mem_of_length_pos
      (show 0 < ((edges.filter (fun e => e.connection_type = some "attack")).filter
        (fun e => e.target_id = t)).length by omega)
    have he0m := List.mem_filter.mp he0
    have ht : t ∈ dedupAcc []
        ((edges.filter (fun e => e.connection_type = some "attack")).map
          (fun e => e.target_id)) := by
      rw [mem_dedupAcc]
      refine ⟨List.mem_map.mpr ⟨e0, he0m.1, ?_⟩, by simp⟩
      simpa using he0m.2
    unfold detect_coordinated_attacks
    dsimp only
    rw [if_neg hlen]
    refine ⟨⟨"coordinated_ddos", none,
        if 10 ≤ uniqueCount
            (((edges.filter (fun e => e.connection_type = some "attack")).filter
              (fun e => e.target_id = t)).map (fun e => e.source_id))
          then "critical" else "high",
        min (95/100)
          (7/10 + ((uniqueCount
              (((edges.filter (fun e => e.connection_type = some "attack")).filter
                (fun e => e.target_id = t)).map (fun e => e.source_id)) : Rat)
            / 20) * (25/100)), t⟩, ?_, rfl, rfl, rfl, rfl⟩
    refine List.mem_flatMap.mpr ⟨t, ht, ?_⟩
    unfold coordinatedFor
    dsimp only
    rw [if_pos h5, if_pos hu]
    exact List.mem_singleton.mpr rfl
  refine ⟨hgen, ?_⟩
  have h6len : 5 ≤ ((exCoordEdges.filter (fun e => e.connection_type = some "attack")).filter
      (fun e => e.target_id = some "victim")).length := by decide
  have h6u : 5 ≤ uniqueCount
      (((exCoordEdges.filter (fun e => e.connection_type = some "attack")).filter
        (fun e => e.target_id = some "victim")).map (fun e => e.source_id)) := by decide
  have h6 : uniqueCount
      (((exCoordEdges.filter (fun e => e.connection_type = some "attack")).filter
        (fun e => e.target_id = some "victim")).map (fun e => e.source_id)) = 6 := by decide
  obtain ⟨d, hd, h1, h2, h3, h4⟩ := hgen exCoordEdges (some "victim") h6len h6u
  refine ⟨d, hd, h1, h2, ?_, ?_⟩
  · rw [h3, h6]
    rfl
  · rw [h4, h6]
    norm_num

/-- Witness for C8 at six distinct sources attacking one target. -/
theorem coordinated_ddos_detection_witness :
    ∃ d ∈ detect_coordinated_attacks exCoordEdges,
      d.dtype = "coordinated_ddos" ∧ d.target = some "victim" ∧ d.severity = "high"
        ∧ d.confidence = min (95/100) (7/10 + ((6 : Rat)/20) * (25/100)) :=
  coordinated_ddos_detection.2

end GraphGuard
